import Mathlib

/-!
Verification of the focusmate-mcp tool handlers against their specification.

The development shallowly embeds the TypeScript sources:
  * `src/utils/errors.ts`        → `FmError` and its per-tool classification maps
  * `src/automation/browser.ts`  → `hasAuthData`, `clearAuthData`,
    `checkAuthAndNavigate`, `captureScreenshotOnError`, `withErrorScreenshot`
  * `src/automation/cookies.ts`  → `hasCookies`, `deleteCookies`
  * `src/tools/book-session.ts`  → `bookSession` (handler of `registerBookSessionTool`)
  * `src/tools/list-sessions.ts` → `listSessions`, `parseTime`
  * `src/tools/cancel-session.ts`→ `cancelSession`
  * `src/tools/focusmate-auth.ts`→ `focusmateAuth`

JavaScript `Date` values are modelled as natural numbers of milliseconds since
the epoch under a fixed-offset (UTC) clock, so `getMinutes`, `setMinutes`,
`setHours` and `setDate(+1)` are pure arithmetic.  Each `async` handler is
modelled as a pure function of its inputs and of an environment record that
fixes the behaviour of the remote surface (which browser steps throw, whether
the page redirects to the login URL, what the dashboard shows); the handler
returns its produced output together with whether the browser was launched.
A thrown JavaScript exception is an `Except.error`; a handler whose `catch`
converts every exception into an output envelope therefore always returns
`Except.ok`.
-/

namespace Focusmate

/-! ### Time model -/

/-- `Date.prototype.getMinutes` on a millisecond timestamp (fixed-offset clock). -/
def getMinutes (t : Nat) : Nat := t / 60000 % 60

/-- `Date.prototype.getHours` on a millisecond timestamp (fixed-offset clock). -/
def getHours (t : Nat) : Nat := t / 3600000 % 24

/-- `Date.prototype.setMinutes m`: replace the minutes component, letting
overflow roll into the hours, keeping seconds and milliseconds. -/
def setMinutes (t m : Nat) : Nat := t - getMinutes t * 60000 + m * 60000

/-- `Date.prototype.setHours h m 0 0`: keep the day, set hours and minutes,
zero the seconds and milliseconds. -/
def setHours (base h m : Nat) : Nat := base / 86400000 * 86400000 + h * 3600000 + m * 60000

/-! ### Error taxonomy (`src/utils/errors.ts`)

Every class in `errors.ts` extends `FocusmateError` with a fixed default
message.  `invalidTime` mirrors the `InvalidTimeError` imported and matched on
by `book-session.ts`; no code path ever constructs it.  `plainError` stands
for a bare JavaScript `Error` (or any non-`FocusmateError` thrown value). -/

inductive FmError
  | authExpired (msg : String)
  | slotUnavailable
  | sessionConflict
  | invalidTime
  | sessionNotFound (sessionId : String)
  | automationFailed (msg : String) (screenshotPath : String)
  | plainError (msg : String)
deriving DecidableEq, Repr

/-- The `.message` of the thrown error object (default constructor messages
from `errors.ts`). -/
def FmError.message : FmError → String
  | .authExpired m => m
  | .slotUnavailable => "The requested time slot is not available."
  | .sessionConflict => "You already have a session at this time."
  | .invalidTime => "Invalid time."
  | .sessionNotFound sid => "Session " ++ sid ++ " not found."
  | .automationFailed m _ => m
  | .plainError m => m

/-- `error instanceof AuthExpiredError`. -/
def FmError.isAuthExpired : FmError → Bool
  | .authExpired _ => true
  | _ => false

/-- The stable error-code taxonomy the tools draw from. -/
def errorTaxonomy : List String :=
  ["AUTH_REQUIRED", "AUTH_EXPIRED", "AUTH_TIMEOUT", "INVALID_TIME",
   "SLOT_UNAVAILABLE", "SESSION_CONFLICT", "SESSION_NOT_FOUND", "AUTOMATION_FAILED"]

/-! ### Session data model (`src/schemas/session.ts`) -/

inductive SessionStatus
  | pending | matched | inProgress | completed | cancelled | noShow
deriving DecidableEq, Repr

structure Session where
  id : String
  startTime : Nat
  endTime : Nat
  duration : Nat
  status : SessionStatus
  partnerId : Option String
  partnerName : Option String
deriving DecidableEq, Repr

/-- `SessionDuration = z.enum(['25', '50', '75'])`. -/
inductive SessionDuration
  | d25 | d50 | d75
deriving DecidableEq, Repr

/-- `parseInt(duration)` on the enumerated string. -/
def SessionDuration.minutes : SessionDuration → Nat
  | .d25 => 25
  | .d50 => 50
  | .d75 => 75

/-! ### Credential stores -/

/-- The browser-profile credential artifact (`browser.ts`): the user data
directory, holding a `Default` profile folder once Chromium has used it.
`none` = the directory does not exist; `some hasDefault` = it exists and
`hasDefault` says whether `Default/` exists inside it. -/
structure AuthDataState where
  userData : Option Bool
deriving DecidableEq, Repr

/-- `hasAuthData()`: does `USER_DATA_DIR/Default` exist. -/
def hasAuthData (s : AuthDataState) : Bool :=
  match s.userData with
  | some hasDefault => hasDefault
  | none => false

/-- `clearAuthData()`: `fs.rmSync(USER_DATA_DIR, {recursive, force})` guarded
by `fs.existsSync`; a total function, a no-op when the directory is absent. -/
def clearAuthData (s : AuthDataState) : AuthDataState :=
  if s.userData.isSome then { userData := none } else s

/-- The cookie-file credential artifact (`cookies.ts`): does `cookies.json`
exist. -/
structure CookiesState where
  cookiesFileExists : Bool
deriving DecidableEq, Repr

/-- `hasCookies()`. -/
def hasCookies (s : CookiesState) : Bool := s.cookiesFileExists

/-- `deleteCookies()`: `fs.unlinkSync` guarded by `fs.existsSync`; a total
function, a no-op when the file is absent. -/
def deleteCookies (s : CookiesState) : CookiesState :=
  if s.cookiesFileExists then { cookiesFileExists := false } else s

/-! ### Browser helpers (`src/automation/browser.ts`) -/

/-- `launchPersistentContext` / `launchBrowser`: succeeds or throws the
environment-chosen error. -/
def launchPersistentContext (launchFails : Option String) : Except FmError Unit :=
  match launchFails with
  | some m => .error (.plainError m)
  | none => .ok ()

/-- `checkAuthAndNavigate(page, url)`: `page.goto` (which may throw), then if
the current URL contains `/login` throw `AuthExpiredError`. -/
def checkAuthAndNavigate (gotoFails : Option String) (redirectedToLogin : Bool) :
    Except FmError Unit :=
  match gotoFails with
  | some m => .error (.plainError m)
  | none =>
    if redirectedToLogin then
      .error (.authExpired "Session expired. Please run focusmate_auth to log in again.")
    else
      .ok ()

/-- The screenshot file name: `operationName-error-timestamp.png`. -/
def screenshotFileName (operationName timestamp : String) : String :=
  operationName ++ "-error-" ++ timestamp ++ ".png"

/-- `captureScreenshotOnError(page, operationName)`: builds the
timestamp-qualified path and calls `page.screenshot`, which may throw. -/
def captureScreenshotOnError (operationName : String)
    (screenshotDir timestamp : String) (screenshotFails : Option String) :
    Except FmError String :=
  match screenshotFails with
  | some m => .error (.plainError m)
  | none => .ok (screenshotDir ++ "/" ++ screenshotFileName operationName timestamp)

/-- `withErrorScreenshot(page, operationName, operation)`: on success pass the
value through; on failure first run the screenshot capture (an exception there
propagates in place of the original error), then rethrow `AuthExpiredError`
unchanged and wrap every other error in `AutomationFailedError` carrying the
screenshot path. -/
def withErrorScreenshot {α : Type} (capture : Except FmError String)
    (operationName : String) (operation : Except FmError α) : Except FmError α :=
  match operation with
  | .ok v => .ok v
  | .error e =>
    match capture with
    | .error captureError => .error captureError
    | .ok screenshotPath =>
      if e.isAuthExpired then
        .error e
      else
        .error (.automationFailed
          (operationName ++ " failed: " ++ e.message ++ ". Screenshot saved to " ++ screenshotPath)
          screenshotPath)

/-! ### Generic handler result

`result = .error e` means the exception `e` escaped the tool handler uncaught;
`browserLaunched` records whether `launchPersistentContext` / `launchBrowser`
was invoked during the call (the only remote-gateway interaction). -/

structure ToolRun (α : Type) where
  result : Except FmError α
  browserLaunched : Bool

/-! ### book_session (`src/tools/book-session.ts`) -/

/-- Environment fixing the remote surface for one `book_session` call. -/
structure BookEnv where
  launchFails : Option String
  gotoFails : Option String
  redirectedToLogin : Bool
  stepFails : Option String
  hasConflict : Bool
  slotAvailable : Bool
  confirmedSessionId : Option String
  dateNow : Nat
  screenshotFails : Option String
  screenshotDir : String
  timestamp : String
deriving DecidableEq, Repr

structure BookSessionOutput where
  success : Bool
  session : Option Session := none
  error : Option String := none
  errorCode : Option String := none
deriving DecidableEq, Repr

/-- The `errorCode` ladder of `book-session.ts`'s `catch` clause
(`instanceof` tests in source order; the constructors are disjoint, so a
`match` is faithful). -/
def bookCatchCode : FmError → String
  | .slotUnavailable => "SLOT_UNAVAILABLE"
  | .sessionConflict => "SESSION_CONFLICT"
  | .invalidTime => "INVALID_TIME"
  | .authExpired _ => "AUTH_EXPIRED"
  | _ => "AUTOMATION_FAILED"

/-- The interpolated off-grid error message of `book-session.ts`. -/
def gridErrorMessage (t : Nat) : String :=
  "Invalid time. FocusMate sessions start every 15 minutes. Please choose a time like "
    ++ toString (getHours t) ++ ":00, " ++ toString (getHours t) ++ ":15, "
    ++ toString (getHours t) ++ ":30, or " ++ toString (getHours t) ++ ":45."

/-- The callback passed to `withErrorScreenshot` by `book-session.ts`:
duration and slot selection (any step may throw a bare error), the conflict
and availability checks, then confirmation and construction of the `Session`
(`sessionId || temp-Date.now()`, `endTime.setMinutes(getMinutes + duration)`). -/
def bookingSteps (env : BookEnv) (targetDate : Nat) (duration : SessionDuration) :
    Except FmError Session :=
  match env.stepFails with
  | some m => .error (.plainError m)
  | none =>
    if env.hasConflict then
      .error .sessionConflict
    else if !env.slotAvailable then
      .error .slotUnavailable
    else
      let sessionId :=
        match env.confirmedSessionId with
        | some sid => if sid = "" then "temp-" ++ toString env.dateNow else sid
        | none => "temp-" ++ toString env.dateNow
      let endTime := setMinutes targetDate (getMinutes targetDate + duration.minutes)
      .ok { id := sessionId, startTime := targetDate, endTime := endTime,
            duration := duration.minutes, status := .pending,
            partnerId := none, partnerName := none }

/-- The body of `book-session.ts`'s `try` block: launch, navigate to the
dashboard (auth check), then the booking steps under `withErrorScreenshot`. -/
def bookAttempt (env : BookEnv) (targetDate : Nat) (duration : SessionDuration) :
    Except FmError Session :=
  match launchPersistentContext env.launchFails with
  | .error e => .error e
  | .ok _ =>
    match checkAuthAndNavigate env.gotoFails env.redirectedToLogin with
    | .error e => .error e
    | .ok _ =>
      withErrorScreenshot
        (captureScreenshotOnError "book-session" env.screenshotDir env.timestamp env.screenshotFails)
        "book-session" (bookingSteps env targetDate duration)

/-- The `book_session` handler: validate the start time locally (past / grid),
check for the credential artifact, then run the remote attempt; the `catch`
clause converts every exception into the failure envelope. -/
def bookSession (env : BookEnv) (startTime now : Nat) (duration : SessionDuration)
    (hasAuth : Bool) : ToolRun BookSessionOutput :=
  if startTime ≤ now then
    { result := .ok { success := false, error := some "Cannot book sessions in the past.",
                      errorCode := some "INVALID_TIME" },
      browserLaunched := false }
  else if getMinutes startTime % 15 ≠ 0 then
    { result := .ok { success := false, error := some (gridErrorMessage startTime),
                      errorCode := some "INVALID_TIME" },
      browserLaunched := false }
  else if !hasAuth then
    { result := .ok { success := false,
                      error := some "Not authenticated. Please run focusmate_auth first.",
                      errorCode := some "AUTH_REQUIRED" },
      browserLaunched := false }
  else
    let output :=
      match bookAttempt env startTime duration with
      | .ok s => { success := true, session := some s : BookSessionOutput }
      | .error e => { success := false, error := some e.message,
                      errorCode := some (bookCatchCode e) }
    { result := .ok output, browserLaunched := true }

/-! ### list_sessions (`src/tools/list-sessions.ts`) -/

/-- A 12-hour clock time string `h:mm(am|pm)` already split into its regex
groups. -/
structure TimeOfDay where
  h : Nat
  m : Nat
  pm : Bool
deriving DecidableEq, Repr

/-- One dashboard session card, reduced to what the handler's regexes extract
from its `innerText`: the `h:mm(am|pm) - h:mm(am|pm)` match if any, the
`\b(25|50|75)\b` match if any, and the partner-name line if any. -/
structure SessionCard where
  time : Option (TimeOfDay × TimeOfDay)
  durationTok : Option Nat
  nameLine : Option String
deriving DecidableEq, Repr

/-- `parseTime(timeStr, baseDate)` from `list-sessions.ts`: 12-hour to 24-hour
conversion, then `date.setHours(hours, minutes, 0, 0)` on a copy of the base. -/
def parseTime (t : TimeOfDay) (base : Nat) : Nat :=
  let hours :=
    if t.pm && t.h ≠ 12 then t.h + 12
    else if !t.pm && t.h = 12 then 0
    else t.h
  setHours base hours t.m

/-- One iteration of the card loop: skip the card when the time regex does not
match (`continue`), otherwise build the `Session`, adding a day to the end
when it falls at or before the start (midnight crossing). -/
def scrapeCard (start : Nat) (i : Nat) (c : SessionCard) : Option Session :=
  match c.time with
  | none => none
  | some (t1, t2) =>
    let duration := c.durationTok.getD 50
    let startD := parseTime t1 start
    let endD0 := parseTime t2 start
    let endD := if endD0 ≤ startD then endD0 + 86400000 else endD0
    some { id := "session-" ++ toString i, startTime := startD, endTime := endD,
           duration := duration, status := .matched,
           partnerId := none, partnerName := c.nameLine }

/-- The full card loop (card indices count every card, matched or not). -/
def scrapeSessions (start : Nat) (cards : List SessionCard) : List Session :=
  cards.enum.filterMap fun ic => scrapeCard start ic.1 ic.2

/-- Environment fixing the remote surface for one `list_sessions` call. -/
structure ListEnv where
  launchFails : Option String
  gotoFails : Option String
  redirectedToLogin : Bool
  scrapeFails : Option String
  cards : List SessionCard
  screenshotFails : Option String
  screenshotDir : String
  timestamp : String
deriving DecidableEq, Repr

structure ListSessionsOutput where
  sessions : List Session
  totalCount : Nat
  error : Option String := none
  errorCode : Option String := none
deriving DecidableEq, Repr

/-- The `errorCode` ladder of `list-sessions.ts`'s `catch` clause. -/
def listCatchCode : FmError → String
  | .authExpired _ => "AUTH_EXPIRED"
  | _ => "AUTOMATION_FAILED"

/-- The body of `list-sessions.ts`'s `try` block: launch, navigate to the
dashboard (auth check), then the scraping loop under `withErrorScreenshot`. -/
def listAttempt (env : ListEnv) (start : Nat) : Except FmError (List Session) :=
  match launchPersistentContext env.launchFails with
  | .error e => .error e
  | .ok _ =>
    match checkAuthAndNavigate env.gotoFails env.redirectedToLogin with
    | .error e => .error e
    | .ok _ =>
      withErrorScreenshot
        (captureScreenshotOnError "list-sessions" env.screenshotDir env.timestamp env.screenshotFails)
        "list-sessions"
        (match env.scrapeFails with
         | some m => .error (.plainError m)
         | none => .ok (scrapeSessions start env.cards))

/-- The `list_sessions` handler: credential check first, then the 7-day
default end of range is computed (and never used), the scrape runs, and the
result is passed through the always-true date filter. -/
def listSessions (env : ListEnv) (hasAuth : Bool) (startDate : Nat)
    (endDate : Option Nat) : ToolRun ListSessionsOutput :=
  if !hasAuth then
    { result := .ok { sessions := [], totalCount := 0,
                      error := some "Not authenticated. Please run focusmate_auth first.",
                      errorCode := some "AUTH_REQUIRED" },
      browserLaunched := false }
  else
    let start := startDate
    let _endOfRange : Nat :=
      match endDate with
      | some e => e
      | none => start + 7 * 24 * 60 * 60 * 1000
    let output :=
      match listAttempt env start with
      | .ok sessions =>
        let filteredSessions := sessions.filter fun _ => true
        { sessions := filteredSessions, totalCount := filteredSessions.length :
            ListSessionsOutput }
      | .error e =>
        { sessions := [], totalCount := 0, error := some e.message,
          errorCode := some (listCatchCode e) }
    { result := .ok output, browserLaunched := true }

/-! ### cancel_session (`src/tools/cancel-session.ts`) -/

/-- Environment fixing the remote surface for one `cancel_session` call. -/
structure CancelEnv where
  launchFails : Option String
  gotoFails : Option String
  redirectedToLogin : Bool
  notFoundShown : Bool
  stepFails : Option String
  screenshotFails : Option String
  screenshotDir : String
  timestamp : String
deriving DecidableEq, Repr

structure CancelSessionOutput where
  success : Bool
  message : String
  errorCode : Option String := none
deriving DecidableEq, Repr

/-- The `errorCode` ladder of `cancel-session.ts`'s `catch` clause. -/
def cancelCatchCode : FmError → String
  | .sessionNotFound _ => "SESSION_NOT_FOUND"
  | .authExpired _ => "AUTH_EXPIRED"
  | _ => "AUTOMATION_FAILED"

/-- The callback passed to `withErrorScreenshot` by `cancel-session.ts`:
navigate straight to the session URL; on a redirect to `/login` throw a bare
`Error` (not an `AuthExpiredError`) whose text copies `AuthExpiredError`'s
default message; then the not-found probe and the cancel clicks. -/
def cancelSteps (env : CancelEnv) (sessionId : String) : Except FmError Bool :=
  match env.gotoFails with
  | some m => .error (.plainError m)
  | none =>
    if env.redirectedToLogin then
      .error (.plainError "Authentication expired. Please run focusmate_auth to log in again.")
    else if env.notFoundShown then
      .error (.sessionNotFound sessionId)
    else
      match env.stepFails with
      | some m => .error (.plainError m)
      | none => .ok true

/-- The body of `cancel-session.ts`'s `try` block: launch, then the
cancellation steps under `withErrorScreenshot` (no dashboard navigation,
hence no `checkAuthAndNavigate`). -/
def cancelAttempt (env : CancelEnv) (sessionId : String) : Except FmError Bool :=
  match launchPersistentContext env.launchFails with
  | .error e => .error e
  | .ok _ =>
    withErrorScreenshot
      (captureScreenshotOnError "cancel-session" env.screenshotDir env.timestamp env.screenshotFails)
      "cancel-session" (cancelSteps env sessionId)

/-- The `cancel_session` handler: credential check first, then the remote
attempt; the `catch` clause converts every exception into the failure
envelope. -/
def cancelSession (env : CancelEnv) (sessionId : String) (hasAuth : Bool) :
    ToolRun CancelSessionOutput :=
  if !hasAuth then
    { result := .ok { success := false,
                      message := "Not authenticated. Please run focusmate_auth first.",
                      errorCode := some "AUTH_REQUIRED" },
      browserLaunched := false }
  else
    let output :=
      match cancelAttempt env sessionId with
      | .ok _ => { success := true,
                   message := "Session " ++ sessionId ++ " has been cancelled." :
                     CancelSessionOutput }
      | .error e => { success := false, message := e.message,
                      errorCode := some (cancelCatchCode e) }
    { result := .ok output, browserLaunched := true }

/-! ### focusmate_auth (`src/tools/focusmate-auth.ts`) -/

/-- Environment fixing the remote surface for one `focusmate_auth` call. -/
structure AuthEnv where
  launchFails : Option String
  gotoFails : Option String
  loginCompletes : Bool
  saveFails : Option String
deriving DecidableEq, Repr

structure AuthToolOutput where
  success : Bool
  message : String
  errorCode : Option String := none
deriving DecidableEq, Repr

/-- The body of `focusmate-auth.ts`'s `try` block: launch the headed browser,
open the login page, poll until the user completes the login or the 5-minute
ceiling elapses; on completion save the cookies. -/
def authAttempt (env : AuthEnv) : Except FmError AuthToolOutput :=
  match env.launchFails with
  | some m => .error (.plainError m)
  | none =>
    match env.gotoFails with
    | some m => .error (.plainError m)
    | none =>
      if env.loginCompletes then
        match env.saveFails with
        | some m => .error (.plainError m)
        | none => .ok { success := true,
                        message := "Successfully authenticated and saved credentials." }
      else
        .ok { success := false, message := "Authentication timed out. Please try again.",
              errorCode := some "AUTH_TIMEOUT" }

/-- The `focusmate_auth` handler.  The source has `try { ... } finally { ... }`
with no `catch`, so any exception thrown inside the attempt escapes the
handler unconverted (`Except.error`). -/
def focusmateAuth (env : AuthEnv) (force : Bool) (cookiesPresent : Bool) :
    ToolRun AuthToolOutput :=
  if !force && cookiesPresent then
    { result := .ok { success := true,
                      message := "Already authenticated. Use force=true to re-authenticate." },
      browserLaunched := false }
  else
    { result := authAttempt env, browserLaunched := true }

/-! ### Result accessors and concrete environments used in the theorems -/

/-- The `errorCode` of a `book_session` result (none when an exception
escaped, which `bookSession` never lets happen). -/
def resultErrorCode (r : Except FmError BookSessionOutput) : Option String :=
  match r with
  | .ok o => o.errorCode
  | .error _ => none

/-- The `sessions` array of a `list_sessions` result. -/
def resultSessions (r : Except FmError ListSessionsOutput) : List Session :=
  match r with
  | .ok o => o.sessions
  | .error _ => []

/-- An error code drawn from the stable taxonomy (or no error at all). -/
def envelopeCode (c : Option String) : Prop :=
  c = none ∨ ∃ code, c = some code ∧ code ∈ errorTaxonomy

/-- A remote surface on which every step of a booking succeeds. -/
def benignBookEnv : BookEnv :=
  { launchFails := none, gotoFails := none, redirectedToLogin := false,
    stepFails := none, hasConflict := false, slotAvailable := true,
    confirmedSessionId := some "abc123", dateNow := 0,
    screenshotFails := none, screenshotDir := "/shots", timestamp := "t0" }

/-- A dashboard card reading `9:00am - 9:50am`, duration token `50`,
partner line `Ada`. -/
def adaCard : SessionCard :=
  { time := some ({ h := 9, m := 0, pm := false }, { h := 9, m := 50, pm := false }),
    durationTok := some 50, nameLine := some "Ada" }

/-- A remote surface on which listing succeeds and shows one card. -/
def benignListEnv : ListEnv :=
  { launchFails := none, gotoFails := none, redirectedToLogin := false,
    scrapeFails := none, cards := [adaCard],
    screenshotFails := none, screenshotDir := "/shots", timestamp := "t0" }

/-- A remote surface that redirects the session page to the login URL
(expired credential) while everything else works. -/
def redirectCancelEnv : CancelEnv :=
  { launchFails := none, gotoFails := none, redirectedToLogin := true,
    notFoundShown := false, stepFails := none,
    screenshotFails := none, screenshotDir := "/shots", timestamp := "t0" }

/-- A remote surface on which the browser launch itself throws. -/
def crashAuthEnv : AuthEnv :=
  { launchFails := some "browser crashed", gotoFails := none,
    loginCompletes := false, saveFails := none }

/-! ### Helper lemmas -/

theorem getMinutes_mul_le (t : Nat) : getMinutes t * 60000 ≤ t := by
  unfold getMinutes
  calc t / 60000 % 60 * 60000 ≤ t / 60000 * 60000 :=
        Nat.mul_le_mul_right _ (Nat.mod_le _ _)
    _ ≤ t := Nat.div_mul_le_self t 60000

theorem setMinutes_add (t d : Nat) : setMinutes t (getMinutes t + d) = t + d * 60000 := by
  have h := getMinutes_mul_le t
  unfold setMinutes
  omega

theorem bookCatchCode_mem (e : FmError) : bookCatchCode e ∈ errorTaxonomy := by
  cases e <;> simp [bookCatchCode, errorTaxonomy]

theorem listCatchCode_mem (e : FmError) : listCatchCode e ∈ errorTaxonomy := by
  cases e <;> simp [listCatchCode, errorTaxonomy]

theorem cancelCatchCode_mem (e : FmError) : cancelCatchCode e ∈ errorTaxonomy := by
  cases e <;> simp [cancelCatchCode, errorTaxonomy]

theorem bookAttempt_error_code (env : BookEnv) (t : Nat) (d : SessionDuration) (e : FmError)
    (h : bookAttempt env t d = .error e) :
    bookCatchCode e = "AUTH_EXPIRED" ∨ bookCatchCode e = "AUTOMATION_FAILED" := by
  unfold bookAttempt at h
  cases hl : env.launchFails with
  | some m =>
    simp [launchPersistentContext, hl] at h
    simp [← h, bookCatchCode]
  | none =>
    simp only [launchPersistentContext, hl] at h
    cases hg : env.gotoFails with
    | some m =>
      simp [checkAuthAndNavigate, hg] at h
      simp [← h, bookCatchCode]
    | none =>
      simp only [checkAuthAndNavigate, hg] at h
      cases hr : env.redirectedToLogin with
      | true =>
        simp [hr] at h
        simp [← h, bookCatchCode]
      | false =>
        simp only [hr, Bool.false_eq_true, if_false] at h
        cases hb : bookingSteps env t d with
        | ok v => simp [withErrorScreenshot, hb] at h
        | error eb =>
          cases hc : env.screenshotFails with
          | some m =>
            simp [withErrorScreenshot, hb, captureScreenshotOnError, hc] at h
            simp [← h, bookCatchCode]
          | none =>
            cases eb <;>
              simp [withErrorScreenshot, hb, captureScreenshotOnError, hc,
                FmError.isAuthExpired] at h <;>
              simp [← h, bookCatchCode]

theorem withErrorScreenshot_ok {α : Type} (cap : Except FmError String) (n : String)
    (op : Except FmError α) (v : α) (h : withErrorScreenshot cap n op = .ok v) :
    op = .ok v := by
  cases op with
  | ok w => simpa [withErrorScreenshot] using h
  | error e =>
    cases cap with
    | error ce => simp [withErrorScreenshot] at h
    | ok p =>
      by_cases hA : e.isAuthExpired = true <;> simp [withErrorScreenshot, hA] at h

theorem bookAttempt_ok (env : BookEnv) (t : Nat) (d : SessionDuration) (s : Session)
    (h : bookAttempt env t d = .ok s) : bookingSteps env t d = .ok s := by
  unfold bookAttempt at h
  cases hl : env.launchFails with
  | some m => simp [launchPersistentContext, hl] at h
  | none =>
    simp only [launchPersistentContext, hl] at h
    cases hg : env.gotoFails with
    | some m => simp [checkAuthAndNavigate, hg] at h
    | none =>
      simp only [checkAuthAndNavigate, hg] at h
      cases hr : env.redirectedToLogin with
      | true => simp [hr] at h
      | false =>
        simp only [hr, Bool.false_eq_true, if_false] at h
        exact withErrorScreenshot_ok _ _ _ _ h

theorem bookingSteps_ok (env : BookEnv) (t : Nat) (d : SessionDuration) (s : Session)
    (h : bookingSteps env t d = .ok s) :
    s.startTime = t ∧ s.duration = d.minutes ∧
    s.endTime = setMinutes t (getMinutes t + d.minutes) := by
  unfold bookingSteps at h
  cases hs : env.stepFails with
  | some m => simp [hs] at h
  | none =>
    simp only [hs] at h
    cases hc : env.hasConflict with
    | true => simp [hc] at h
    | false =>
      simp only [hc, Bool.false_eq_true, if_false] at h
      cases ha : env.slotAvailable with
      | false => simp [ha] at h
      | true =>
        simp only [ha, Bool.not_true, Bool.false_eq_true, if_false,
          Except.ok.injEq] at h
        subst h
        exact ⟨rfl, rfl, rfl⟩

theorem duration_enum (d : SessionDuration) :
    d.minutes = 25 ∨ d.minutes = 50 ∨ d.minutes = 75 := by
  cases d <;> simp [SessionDuration.minutes]

/-! ### Claim theorems -/

/-- C8: for every `list_sessions` call made while no credential artifact is
present, the tool returns `sessions = []`, `totalCount = 0`,
`errorCode = AUTH_REQUIRED`, and no browser is launched. -/
theorem listSessions_unauthenticated (env : ListEnv) (s : Nat) (e : Option Nat) :
    listSessions env false s e =
      { result := .ok { sessions := [], totalCount := 0,
                        error := some "Not authenticated. Please run focusmate_auth first.",
                        errorCode := some "AUTH_REQUIRED" },
        browserLaunched := false } := rfl

/-- C9: the credential stores' clear operations are total and idempotent:
`clearAuthData` (browser profile) and `deleteCookies` (cookie file) are
no-ops on the absent state rather than errors, applying them twice equals
applying them once, and the presence query is false immediately after any
clear. -/
theorem clear_idempotent_total (s : AuthDataState) (c : CookiesState) :
    hasAuthData (clearAuthData s) = false ∧
    clearAuthData (clearAuthData s) = clearAuthData s ∧
    clearAuthData { userData := none } = { userData := none } ∧
    hasCookies (deleteCookies c) = false ∧
    deleteCookies (deleteCookies c) = deleteCookies c ∧
    deleteCookies { cookiesFileExists := false } = { cookiesFileExists := false } := by
  obtain ⟨u⟩ := s
  obtain ⟨b⟩ := c
  rcases u with _ | v
  · cases b <;> simp [hasAuthData, clearAuthData, hasCookies, deleteCookies]
  · cases v <;> cases b <;> simp [hasAuthData, clearAuthData, hasCookies, deleteCookies]

/-- C4: on a login redirect, the gateway check used by book and list
(`checkAuthAndNavigate`) does fail fast with `AuthExpiredError`, but the
cancellation path throws a bare `Error`, so `withErrorScreenshot` wraps it
and `cancel_session` reports `AUTOMATION_FAILED` instead of `AUTH_EXPIRED`:
the claimed precedence of the auth-expiry classification is violated on the
cancellation action. -/
theorem cancelSession_redirect_misclassified :
    checkAuthAndNavigate none true =
      .error (.authExpired "Session expired. Please run focusmate_auth to log in again.") ∧
    (cancelSession redirectCancelEnv "s1" true).result =
      .ok { success := false,
            message := "cancel-session failed: Authentication expired. Please run focusmate_auth to log in again.. Screenshot saved to /shots/cancel-session-error-t0.png",
            errorCode := some "AUTOMATION_FAILED" } :=
  ⟨rfl, rfl⟩

/-- C3: the claim fails on `focusmate_auth`: its handler has `try/finally`
with no `catch`, so an exception thrown while launching the browser escapes
to the caller unconverted instead of being recovered into the uniform
envelope. -/
theorem focusmateAuth_escape_counterexample :
    (focusmateAuth crashAuthEnv false false).result =
      .error (.plainError "browser crashed") := rfl

/-- C3 (amended): the three tools with a `catch` clause — book, list, cancel
— recover every failure into the `{success, errorCode, message}` envelope
with the code drawn from the stable taxonomy; `focusmate_auth` alone has no
recovery boundary, so failures inside its `try` block escape raw. -/
theorem tool_handlers_recover_failures (be : BookEnv) (t n : Nat) (d : SessionDuration)
    (a : Bool) (le : ListEnv) (s : Nat) (e : Option Nat) (ce : CancelEnv) (sid : String) :
    (∃ o, (bookSession be t n d a).result = .ok o ∧ envelopeCode o.errorCode) ∧
    (∃ o, (listSessions le a s e).result = .ok o ∧ envelopeCode o.errorCode) ∧
    (∃ o, (cancelSession ce sid a).result = .ok o ∧ envelopeCode o.errorCode) := by
  refine ⟨?_, ?_, ?_⟩
  · unfold bookSession
    by_cases h1 : t ≤ n
    · rw [if_pos h1]
      exact ⟨_, rfl, .inr ⟨_, rfl, by simp [errorTaxonomy]⟩⟩
    · rw [if_neg h1]
      by_cases h2 : getMinutes t % 15 ≠ 0
      · rw [if_pos h2]
        exact ⟨_, rfl, .inr ⟨_, rfl, by simp [errorTaxonomy]⟩⟩
      · rw [if_neg h2]
        cases a with
        | false => exact ⟨_, rfl, .inr ⟨_, rfl, by simp [errorTaxonomy]⟩⟩
        | true =>
          simp only [Bool.not_true, Bool.false_eq_true, if_false]
          cases hA : bookAttempt be t d with
          | ok v => exact ⟨_, rfl, .inl rfl⟩
          | error err => exact ⟨_, rfl, .inr ⟨_, rfl, bookCatchCode_mem err⟩⟩
  · cases a with
    | false => exact ⟨_, rfl, .inr ⟨_, rfl, by simp [errorTaxonomy]⟩⟩
    | true =>
      unfold listSessions
      simp only [Bool.not_true, Bool.false_eq_true, if_false]
      cases hA : listAttempt le s with
      | ok v => exact ⟨_, rfl, .inl rfl⟩
      | error err => exact ⟨_, rfl, .inr ⟨_, rfl, listCatchCode_mem err⟩⟩
  · cases a with
    | false => exact ⟨_, rfl, .inr ⟨_, rfl, by simp [errorTaxonomy]⟩⟩
    | true =>
      unfold cancelSession
      simp only [Bool.not_true, Bool.false_eq_true, if_false]
      cases hA : cancelAttempt ce sid with
      | ok v => exact ⟨_, rfl, .inl rfl⟩
      | error err => exact ⟨_, rfl, .inr ⟨_, rfl, cancelCatchCode_mem err⟩⟩

/-- C10: the claim fails: when the failure-path screenshot capture itself
throws, its exception propagates in place of the error being diagnosed — the
caller loses the original failure (here a `SlotUnavailableError` becomes the
capture's bare error). -/
theorem withErrorScreenshot_masking_counterexample :
    withErrorScreenshot (Except.error (FmError.plainError "screenshot failed")) "book-session"
        (Except.error FmError.slotUnavailable : Except FmError Session) =
      Except.error (FmError.plainError "screenshot failed") ∧
    FmError.plainError "screenshot failed" ≠ FmError.slotUnavailable :=
  ⟨rfl, by decide⟩

/-- C10 (amended): capture is attempted on every failure of the wrapped
operation, keyed by operation name and timestamp; when the capture succeeds
the original failure is re-raised (`AuthExpiredError` unchanged, every other
error wrapped as `AutomationFailedError` carrying the capture reference in
its message); but when the capture step itself fails, the capture's exception
propagates instead of the original error. -/
theorem withErrorScreenshot_classification {α : Type} (operationName path : String)
    (op : Except FmError α) (e : FmError) :
    (∀ v, op = .ok v → withErrorScreenshot (.ok path) operationName op = .ok v) ∧
    (op = .error e → e.isAuthExpired = true →
      withErrorScreenshot (.ok path) operationName op = .error e) ∧
    (op = .error e → e.isAuthExpired = false →
      withErrorScreenshot (.ok path) operationName op =
        .error (.automationFailed
          (operationName ++ " failed: " ++ e.message ++ ". Screenshot saved to " ++ path)
          path)) ∧
    (∀ captureError, op = .error e →
      withErrorScreenshot (.error captureError) operationName op = .error captureError) := by
  refine ⟨?_, ?_, ?_, ?_⟩
  · intro v hv
    subst hv
    rfl
  · intro hv hA
    subst hv
    simp [withErrorScreenshot, hA]
  · intro hv hA
    subst hv
    simp [withErrorScreenshot, hA]
  · intro captureError hv
    subst hv
    rfl

/-- C10 witness: a `SessionNotFoundError` under a successful capture is
wrapped with the screenshot path attached; under a failing capture the
capture's error propagates. -/
theorem withErrorScreenshot_classification_witness :
    withErrorScreenshot (.ok "/shots/x.png") "cancel-session"
        (.error (FmError.sessionNotFound "s1") : Except FmError Bool) =
      .error (.automationFailed
        "cancel-session failed: Session s1 not found.. Screenshot saved to /shots/x.png"
        "/shots/x.png") ∧
    withErrorScreenshot (.error (FmError.plainError "boom")) "cancel-session"
        (.error (FmError.sessionNotFound "s1") : Except FmError Bool) =
      .error (FmError.plainError "boom") :=
  ⟨(withErrorScreenshot_classification "cancel-session" "/shots/x.png"
      (.error (FmError.sessionNotFound "s1")) (FmError.sessionNotFound "s1")).2.2.1 rfl rfl,
   (withErrorScreenshot_classification "cancel-session" "/shots/x.png"
      (.error (FmError.sessionNotFound "s1")) (FmError.sessionNotFound "s1")).2.2.2
      (FmError.plainError "boom") rfl⟩

/-- C1: the claim fails: 930000 ms (00:15:30) is strictly in the future of
`now = 0` and off the 15-minute slot grid (not a multiple of 900000 ms =
15 min), yet local validation passes — the handler proceeds, launches the
browser, and books the off-grid time, because only the minutes component is
checked. -/
theorem book_offgrid_seconds_counterexample :
    ¬ (930000 % 900000 = 0) ∧
    (bookSession benignBookEnv 930000 0 .d50 true).browserLaunched = true ∧
    (bookSession benignBookEnv 930000 0 .d50 true).result =
      .ok { success := true,
            session := some { id := "abc123", startTime := 930000, endTime := 3930000,
                              duration := 50, status := .pending,
                              partnerId := none, partnerName := none } } :=
  ⟨by decide, rfl, rfl⟩

/-- C1 (amended): local validation rejects a startTime at or before now with
`INVALID_TIME` and no browser launch; rejects a startTime whose minutes
component is not divisible by 15 with `INVALID_TIME` and no browser launch;
and accepts every other startTime (seconds and milliseconds are not
inspected), never producing `INVALID_TIME` after acceptance. -/
theorem book_session_validation (env : BookEnv) (startTime now : Nat)
    (d : SessionDuration) (hasAuth : Bool) :
    (startTime ≤ now →
      bookSession env startTime now d hasAuth =
        { result := .ok { success := false,
                          error := some "Cannot book sessions in the past.",
                          errorCode := some "INVALID_TIME" },
          browserLaunched := false }) ∧
    (now < startTime → getMinutes startTime % 15 ≠ 0 →
      bookSession env startTime now d hasAuth =
        { result := .ok { success := false, error := some (gridErrorMessage startTime),
                          errorCode := some "INVALID_TIME" },
          browserLaunched := false }) ∧
    (now < startTime → getMinutes startTime % 15 = 0 →
      resultErrorCode (bookSession env startTime now d hasAuth).result ≠
        some "INVALID_TIME") := by
  refine ⟨?_, ?_, ?_⟩
  · intro h1
    unfold bookSession
    rw [if_pos h1]
  · intro h1 h2
    unfold bookSession
    rw [if_neg (Nat.not_le.mpr h1), if_pos h2]
  · intro h1 h2
    unfold bookSession
    rw [if_neg (Nat.not_le.mpr h1), if_neg (not_not_intro h2)]
    cases hasAuth with
    | false =>
      have hgoal : resultErrorCode
          (Except.ok { success := false, session := none,
                       error := some "Not authenticated. Please run focusmate_auth first.",
                       errorCode := some "AUTH_REQUIRED" } :
            Except FmError BookSessionOutput) ≠ some "INVALID_TIME" := by decide
      exact hgoal
    | true =>
      simp only [Bool.not_true, Bool.false_eq_true, if_false]
      cases hA : bookAttempt env startTime d with
      | ok v => simp [resultErrorCode]
      | error err =>
        rcases bookAttempt_error_code env startTime d err hA with hc | hc <;>
          simp [resultErrorCode, hc]

/-- C1 witness: concrete runs exercising the three validation outcomes. -/
theorem book_session_validation_witness :
    ((0 : Nat) ≤ 0 ∧
      bookSession benignBookEnv 0 0 .d50 true =
        { result := .ok { success := false,
                          error := some "Cannot book sessions in the past.",
                          errorCode := some "INVALID_TIME" },
          browserLaunched := false }) ∧
    ((0 : Nat) < 420000 ∧ getMinutes 420000 % 15 ≠ 0 ∧
      bookSession benignBookEnv 420000 0 .d50 true =
        { result := .ok { success := false, error := some (gridErrorMessage 420000),
                          errorCode := some "INVALID_TIME" },
          browserLaunched := false }) ∧
    ((0 : Nat) < 900000 ∧ getMinutes 900000 % 15 = 0 ∧
      resultErrorCode (bookSession benignBookEnv 900000 0 .d50 true).result ≠
        some "INVALID_TIME") :=
  ⟨⟨by decide, (book_session_validation benignBookEnv 0 0 .d50 true).1 (by decide)⟩,
   ⟨by decide, by decide,
    (book_session_validation benignBookEnv 420000 0 .d50 true).2.1 (by decide) (by decide)⟩,
   ⟨by decide, by decide,
    (book_session_validation benignBookEnv 900000 0 .d50 true).2.2 (by decide) (by decide)⟩⟩

/-- C2: the claim fails: with a credential present and endDate (500 ms)
strictly before startDate (1000 ms), `list_sessions` performs no range
validation — the browser is launched and the call succeeds with the scraped
sessions; no InvalidDateRange error is produced. -/
theorem list_range_counterexample :
    500 < 1000 ∧
    (listSessions benignListEnv true 1000 (some 500)).browserLaunched = true ∧
    (listSessions benignListEnv true 1000 (some 500)).result =
      .ok { sessions := scrapeSessions 1000 benignListEnv.cards,
            totalCount := (scrapeSessions 1000 benignListEnv.cards).length } :=
  ⟨by decide, rfl, rfl⟩

/-- C2 (amended): `list_sessions` performs no date-range validation: a call
whose endDate precedes its startDate runs exactly like a call with no endDate
(the computed end of range is never consulted), the remote call still
happens, and no InvalidDateRange code exists in the taxonomy. -/
theorem listSessions_no_range_validation (env : ListEnv) (s e : Nat) (h : e < s) :
    listSessions env true s (some e) = listSessions env true s none ∧
    (listSessions env true s (some e)).browserLaunched = true ∧
    "INVALID_DATE_RANGE" ∉ errorTaxonomy :=
  ⟨rfl, rfl, by decide⟩

/-- C2 witness: the inverted range 1000/500 on a benign remote surface. -/
theorem listSessions_no_range_validation_witness :
    500 < 1000 ∧
    (listSessions benignListEnv true 1000 (some 500) =
        listSessions benignListEnv true 1000 none ∧
      (listSessions benignListEnv true 1000 (some 500)).browserLaunched = true ∧
      "INVALID_DATE_RANGE" ∉ errorTaxonomy) :=
  ⟨by decide, listSessions_no_range_validation benignListEnv 1000 500 (by decide)⟩

/-- C5: the claim fails: the result is not independent of the date-range
inputs — startDate is the base date used to parse each card's time strings,
so the same dashboard card yields different sessions for different
startDates. -/
theorem list_startDate_dependence_counterexample :
    resultSessions (listSessions benignListEnv true 0 none).result ≠
      resultSessions (listSessions benignListEnv true 86400000 none).result := by
  decide

/-- C5 (amended): with a credential present and a successful scrape, the
sessions returned are exactly the full scraped set: the date-range filter
accepts every session unconditionally and the computed end of range is never
consulted, so endDate has no effect; startDate, however, serves as the base
date when parsing each card's times and so determines the date portion of
the returned timestamps. -/
theorem listSessions_returns_all_scraped (env : ListEnv) (s : Nat) (e : Option Nat)
    (hl : env.launchFails = none) (hg : env.gotoFails = none)
    (hr : env.redirectedToLogin = false) (hs : env.scrapeFails = none) :
    (listSessions env true s e).result =
      .ok { sessions := scrapeSessions s env.cards,
            totalCount := (scrapeSessions s env.cards).length } ∧
    listSessions env true s e = listSessions env true s none := by
  constructor
  · have hA : listAttempt env s = .ok (scrapeSessions s env.cards) := by
      unfold listAttempt
      rw [hl, hg, hr, hs]
      rfl
    unfold listSessions
    simp only [Bool.not_true, Bool.false_eq_true, if_false]
    rw [hA]
    simp [List.filter_true]
  · rfl

/-- C5 witness: the benign one-card surface with an arbitrary endDate. -/
theorem listSessions_returns_all_scraped_witness :
    (listSessions benignListEnv true 0 (some 500)).result =
      .ok { sessions := scrapeSessions 0 benignListEnv.cards,
            totalCount := (scrapeSessions 0 benignListEnv.cards).length } ∧
    listSessions benignListEnv true 0 (some 500) = listSessions benignListEnv true 0 none :=
  listSessions_returns_all_scraped benignListEnv 0 (some 500) rfl rfl rfl rfl

/-- C6: every session constructed by `book_session` from a validated booking
request satisfies `endTime = startTime + duration` exactly (in milliseconds),
with the duration one of the three supported minute lengths 25, 50, 75. -/
theorem book_session_endTime (env : BookEnv) (startTime now : Nat) (d : SessionDuration)
    (hasAuth : Bool) (o : BookSessionOutput) (s : Session)
    (h : (bookSession env startTime now d hasAuth).result = .ok o)
    (hsess : o.session = some s) :
    s.endTime = s.startTime + s.duration * 60000 ∧ s.duration = d.minutes ∧
    (d.minutes = 25 ∨ d.minutes = 50 ∨ d.minutes = 75) := by
  unfold bookSession at h
  by_cases h1 : startTime ≤ now
  · rw [if_pos h1] at h
    simp only [Except.ok.injEq] at h
    subst h
    simp at hsess
  · rw [if_neg h1] at h
    by_cases h2 : getMinutes startTime % 15 ≠ 0
    · rw [if_pos h2] at h
      simp only [Except.ok.injEq] at h
      subst h
      simp at hsess
    · rw [if_neg h2] at h
      cases hasAuth with
      | false =>
        simp only [Bool.not_false, if_true, Except.ok.injEq] at h
        subst h
        simp at hsess
      | true =>
        simp only [Bool.not_true, Bool.false_eq_true, if_false] at h
        cases hA : bookAttempt env startTime d with
        | error err =>
          rw [hA] at h
          simp only [Except.ok.injEq] at h
          subst h
          simp at hsess
        | ok v =>
          rw [hA] at h
          simp only [Except.ok.injEq] at h
          subst h
          simp only [Option.some.injEq] at hsess
          subst hsess
          obtain ⟨hst, hdur, hend⟩ := bookingSteps_ok env startTime d _ (bookAttempt_ok env startTime d _ hA)
          refine ⟨?_, hdur, duration_enum d⟩
          rw [hend, hst, hdur, setMinutes_add]

/-- C6 witness: booking 00:15 for 50 minutes on the benign surface yields a
session ending at 00:15 + 50 min. -/
theorem book_session_endTime_witness :
    (3900000 : Nat) = 900000 + 50 * 60000 ∧ (50 : Nat) = SessionDuration.d50.minutes ∧
    (SessionDuration.d50.minutes = 25 ∨ SessionDuration.d50.minutes = 50 ∨
      SessionDuration.d50.minutes = 75) :=
  book_session_endTime benignBookEnv 900000 0 .d50 true
    { success := true,
      session := some { id := "abc123", startTime := 900000, endTime := 3900000,
                        duration := 50, status := .pending,
                        partnerId := none, partnerName := none } }
    { id := "abc123", startTime := 900000, endTime := 3900000, duration := 50,
      status := .pending, partnerId := none, partnerName := none }
    rfl rfl

end Focusmate
